import Mathlib

/-!
Verification of `deep_qa/solvers/pretraining/attention_pretrainer.py` (and the
collaborator surface it consumes), shallowly embedded in Lean 4.

The embedding models the Python objects as explicit state:

* a Python `dict` of configuration flags becomes an association list
  `List (String × Bool)` with Python's insertion-order update semantics;
* the trainer object becomes a `Trainer` structure holding exactly the fields
  the pretrainer reads or writes (`knowledge_selector_params`,
  `knowledge_selector_layers`, max lengths, encoder/selector accessors,
  `data_indexer`, `tokenizer`, instance type);
* the mutating methods `AttentionPretrainer.__init__` and
  `AttentionPretrainer.on_finished` become state-passing functions
  returning the updated trainer; a raised `ConfigurationError` becomes an
  `Except` value;
* Keras graph construction (`_build_model`) becomes the construction of a
  symbolic graph AST (`Node`), with the merge lambda's per-sample semantics
  (`merge_mode`) given on lists.

Collaborator code that is not part of this repository slice (the `Pretrainer`
base class, `TextDataset`, `DataIndexer`, the training loop) is modelled from
the spec; each such definition says so in its doc comment.
-/

/-- A Python `dict` lookup (`d[k]` when present): first binding of key `k`. -/
def dictLookup (d : List (String × Bool)) (k : String) : Option Bool :=
  match d with
  | [] => none
  | (k', v) :: rest => if k' = k then some v else dictLookup rest k

/-- Python's `d.get(k, dflt)`. -/
def dictGet (d : List (String × Bool)) (k : String) (dflt : Bool) : Bool :=
  (dictLookup d k).getD dflt

/-- Python's `d[k] = v`: update the existing binding in place (keeping its
position in insertion order), or append a new binding at the end. -/
def dictSet (d : List (String × Bool)) (k : String) (v : Bool) : List (String × Bool) :=
  match d with
  | [] => [(k, v)]
  | (k', v') :: rest => if k' = k then (k, v) :: rest else (k', v') :: dictSet rest k v

/-- A Keras layer object as far as the pretrainer inspects it: it is either a
`TimeDistributed` wrapper around an inner layer (Python: `isinstance(x,
TimeDistributed)` with inner layer `x.layer`) or a base layer. -/
inductive KLayer where
  | base (tag : String)
  | timeDistributed (layer : KLayer)
deriving DecidableEq, Repr

/-- `isinstance(x, TimeDistributed)`. -/
def KLayer.isTimeDistributed : KLayer → Bool
  | .timeDistributed _ => true
  | .base _ => false

/-- The unwrapping loop at lines 124-125 and 142-143 of
`attention_pretrainer.py`:
`while isinstance(x, TimeDistributed): x = x.layer`. -/
def unwrapTimeDistributed : KLayer → KLayer
  | .timeDistributed layer => unwrapTimeDistributed layer
  | .base tag => .base tag

/-- A knowledge-selector layer instance, as far as the pretrainer touches it:
it carries a mutable `hard_selection` attribute (written by `on_finished`). -/
structure KnowledgeSelectorLayer where
  hard_selection : Bool
deriving DecidableEq, Repr

/-- Modelled from the spec: the word-to-index dictionary owned by the trainer.
Only the set of known words matters to the claims, kept in first-seen order. -/
structure DataIndexer where
  words : List String
deriving DecidableEq, Repr

/-- Modelled from the spec: an instance type determines how one line of the
primary training file is parsed into a text instance; the instance's primary
example field holds the tokens the supplied tokenizer produces on the line. -/
structure InstanceType where
  read : String → (String → List String) → List String

/-- A text instance's primary example field: its tokens. -/
structure TextInstance where
  words : List String
deriving DecidableEq, Repr

/-- A `LabeledBackgroundInstance`: a primary text instance augmented with a
labeled attention record read from the background file (the record's schema is
an external collaborator's concern and is kept opaque). -/
structure LabeledBackgroundInstance where
  text_instance : TextInstance
  attention_label : String
deriving DecidableEq, Repr

/-- The trainer object, restricted to the collaborator surface
`AttentionPretrainer` consumes (spec section 6): configuration map, selector
layer instances keyed by position, maximum lengths, encoder and selector
accessors, word indexer, tokenizer and instance type.  The
`isMemoryNetworkSolver` flag models `isinstance(trainer, MemoryNetworkSolver)`. -/
structure Trainer where
  isMemoryNetworkSolver : Bool
  knowledge_selector_params : List (String × Bool)
  knowledge_selector_layers : List (Nat × KnowledgeSelectorLayer)
  max_sentence_length : Nat
  max_knowledge_length : Nat
  sentence_encoder : KLayer
  knowledge_selectors : Nat → KLayer
  data_indexer : DataIndexer
  tokenizer : String → List String
  instance_type : InstanceType

/-- `trainer._get_sentence_encoder()`.  Modelled from the spec: the accessor
returns the trainer's sentence encoder, possibly time-distributed-wrapped. -/
def _get_sentence_encoder (t : Trainer) : KLayer :=
  t.sentence_encoder

/-- `trainer._get_knowledge_selector(i)`.  Modelled from the spec: the
knowledge-selector accessor, by position index; the layer it returns may be
time-distributed-wrapped. -/
def _get_knowledge_selector (t : Trainer) (i : Nat) : KLayer :=
  t.knowledge_selectors i

/-- The `ConfigurationError` raised by the constructor's type check. -/
structure ConfigurationError where
  message : String
deriving DecidableEq, Repr

/-- Modelled from the spec: the `params` consumed by the `Pretrainer` base
constructor carry the pretrainer's training-file list (each file is its list
of lines). -/
structure PretrainerParams where
  train_files : List (List String)
deriving DecidableEq, Repr

/-- The `AttentionPretrainer` object's own state after construction:
the file list stored by the base constructor (modelled from the spec: the base
`Pretrainer.__init__` stores the trainer reference and the training files and
does not mutate the trainer), the saved `hard_selection` flag, and the name. -/
structure AttentionPretrainer where
  train_files : List (List String)
  _old_hard_attention_setting : Bool
  name : String
deriving DecidableEq, Repr

/-- `AttentionPretrainer.__init__(trainer, params)` (lines 40-47):
reject a trainer that is not a `MemoryNetworkSolver` with a
`ConfigurationError`; otherwise save
`trainer.knowledge_selector_params.get('hard_selection', False)` and force
`trainer.knowledge_selector_params['hard_selection'] = False`.
The returned `Trainer` is the post-call state of the shared trainer; on the
error path nothing after the `raise` runs, so the trainer is returned
unchanged. -/
def AttentionPretrainer.init (trainer : Trainer) (params : PretrainerParams) :
    Except ConfigurationError AttentionPretrainer × Trainer :=
  if trainer.isMemoryNetworkSolver then
    let _old_hard_attention_setting :=
      dictGet trainer.knowledge_selector_params "hard_selection" false
    let trainer' := { trainer with
      knowledge_selector_params :=
        dictSet trainer.knowledge_selector_params "hard_selection" false }
    (.ok { train_files := params.train_files
           _old_hard_attention_setting := _old_hard_attention_setting
           name := "AttentionPretrainer" },
     trainer')
  else
    (.error { message := "The AttentionPretrainer needs a subclass of MemoryNetworkSolver" },
     trainer)

/-- `AttentionPretrainer.on_finished` (lines 49-53): write the saved setting
back to `trainer.knowledge_selector_params['hard_selection']` and to the
`hard_selection` attribute of every layer in
`trainer.knowledge_selector_layers.values()`. -/
def AttentionPretrainer.on_finished (self : AttentionPretrainer) (trainer : Trainer) : Trainer :=
  { trainer with
    knowledge_selector_params :=
      dictSet trainer.knowledge_selector_params "hard_selection"
        self._old_hard_attention_setting
    knowledge_selector_layers :=
      trainer.knowledge_selector_layers.map
        (fun kl => (kl.1, { hard_selection := self._old_hard_attention_setting })) }

/-- Modelled from the spec (sections 5 and 7): the pretraining run lifecycle.
The external training-loop driver invokes the `on_finished` hook when the run
completes; if the run aborts abnormally (a failure raised during pretraining),
the restoration step does not run and the trainer keeps its mid-pretraining
state.  `aborted` selects the exit path. -/
def runPretraining (self : AttentionPretrainer) (trainer : Trainer) (aborted : Bool) : Trainer :=
  if aborted then trainer else self.on_finished trainer

/-- `TextDataset.read_from_file(file, instance_type, tokenizer=...)`.
Modelled from the spec: parses each line of the primary file into one text
instance of the given instance type, tokenizing with the given tokenizer;
one instance per line, in file order. -/
def TextDataset.read_from_file (fileLines : List String) (instance_type : InstanceType)
    (tokenizer : String → List String) : List TextInstance :=
  fileLines.map (fun line => { words := instance_type.read line tokenizer })

/-- `TextDataset.read_labeled_background_from_file(dataset, file)`.
Modelled from the spec: associates each example of the dataset, in order, with
the labeled attention record at the same position of the background file; the
primary example fields are kept unchanged. -/
def TextDataset.read_labeled_background_from_file (dataset : List TextInstance)
    (backgroundLines : List String) : List LabeledBackgroundInstance :=
  dataset.enum.map (fun p => { text_instance := p.2
                               attention_label := backgroundLines.getD p.1 "" })

/-- `AttentionPretrainer._load_dataset_from_files` (lines 55-68): read the
primary file with the trainer's own instance type and tokenizer, then attach
the labeled background from the second file.  Python indexes `files[0]` and
`files[1]`, so fewer than two files raises (modelled as `none`). -/
def _load_dataset_from_files (trainer : Trainer) (files : List (List String)) :
    Option (List LabeledBackgroundInstance) :=
  match files with
  | f0 :: f1 :: _ =>
      some (TextDataset.read_labeled_background_from_file
              (TextDataset.read_from_file f0 trainer.instance_type trainer.tokenizer) f1)
  | _ => none

/-- `DataIndexer.fit_word_dictionary`.  Modelled from the spec: extends the
word-to-index dictionary with the vocabulary observed in the dataset's primary
example fields (not the attention-label fields); existing entries keep their
indices. -/
def DataIndexer.fit_word_dictionary (di : DataIndexer)
    (dataset : List LabeledBackgroundInstance) : DataIndexer :=
  { words := di.words ++ (dataset.map (fun i => i.text_instance.words)).flatten }

/-- `AttentionPretrainer.fit_data_indexer` (lines 99-101): load the
pretraining dataset from `self.train_files` and fit the trainer's data
indexer's word dictionary on it.  Returns the updated trainer (`none` when
loading raises). -/
def AttentionPretrainer.fit_data_indexer (self : AttentionPretrainer) (trainer : Trainer) :
    Option Trainer :=
  match _load_dataset_from_files trainer self.train_files with
  | some dataset =>
      some { trainer with data_indexer := trainer.data_indexer.fit_word_dictionary dataset }
  | none => none

/-- One instance's training input, as produced by
`IndexedInstance.as_training_data()`: either a single numeric array or a tuple
of per-field arrays.  `γ` is one field's array, kept abstract. -/
inductive InstanceInput (γ : Type) where
  | single (value : γ)
  | tuple (fields : List γ)
deriving DecidableEq, Repr

/-- `isinstance(x, tuple)`. -/
def InstanceInput.isTuple {γ : Type} : InstanceInput γ → Bool
  | .tuple _ => true
  | .single _ => false

/-- The fields Python's `zip(*inputs)` iterates for one input (only reached
when the branch has established that the inputs are tuples). -/
def InstanceInput.fieldsOf {γ : Type} : InstanceInput γ → List γ
  | .tuple fields => fields
  | .single value => [value]

/-- An indexed, padded instance as `_prepare_data` consumes it: its training
input and its label (the labeled attention over the background). -/
structure IndexedInstance (γ Λ : Type) where
  input : InstanceInput γ
  label : Λ
deriving DecidableEq, Repr

/-- The inputs returned by `_prepare_data`: either one flat stacked array of
all the instances' inputs (`numpy.asarray(inputs)`), or one array per field
(`[numpy.asarray(x) for x in zip(*inputs)]`). -/
inductive PreparedInputs (γ : Type) where
  | flatArray (rows : List (InstanceInput γ))
  | fieldArrays (arrays : List (List γ))
deriving DecidableEq, Repr

/-- Number of tuples Python's `zip(*rows)` yields: the length of the shortest
row (`zip()` of no iterables yields nothing). -/
def pyZipLength {γ : Type} : List (List γ) → Nat
  | [] => 0
  | r :: rs => rs.foldl (fun m s => min m s.length) r.length

/-- Python's `zip(*rows)`: the j-th output tuple collects the j-th element of
every row, stopping at the shortest row. -/
def pyZip {γ : Type} (rows : List (List γ)) : List (List γ) :=
  (List.range (pyZipLength rows)).map (fun j => rows.filterMap (fun r => r.get? j))

/-- `AttentionPretrainer._prepare_data(dataset, for_train)` (lines 70-97).
Indexing (`dataset.to_indexed_dataset(self.trainer.data_indexer)`) and padding
(`indexed_dataset.pad_instances(self.trainer._get_max_lengths())`) are
external collaborators; modelled from the spec, each converts instances
one-to-one in order (`toIndexed`, `padInstance`), and `as_training_data`
yields one (input, label) pair per instance in order.  The `for_train`
argument is unused by the body.  Python evaluates `inputs[0]`, which raises
`IndexError` on an empty dataset (modelled as `none`); when the first input is
a tuple the inputs are transposed with `zip(*inputs)` into one array per
field, otherwise they are stacked as one flat array. -/
def _prepare_data {δ γ Λ : Type} (toIndexed : δ → IndexedInstance γ Λ)
    (padInstance : IndexedInstance γ Λ → IndexedInstance γ Λ)
    (dataset : List δ) (for_train : Bool) :
    Option (PreparedInputs γ × List Λ) :=
  let indexed_dataset := dataset.map toIndexed
  let padded := indexed_dataset.map padInstance
  let inputs := padded.map (fun i => i.input)
  let labels := padded.map (fun i => i.label)
  match inputs with
  | [] => none
  | first :: _ =>
      if first.isTuple then
        some (.fieldArrays (pyZip (inputs.map InstanceInput.fieldsOf)), labels)
      else
        some (.flatArray inputs, labels)

/-- The `merge_mode` lambda (lines 131-133), per sample: `K.expand_dims(q,
dim=1)` turns the encoded question into a length-one sequence and
`K.concatenate([.., ..], axis=1)` prepends it to the encoded background
sequence, so position 0 is the question and position i+1 is background item i. -/
def merge_mode {γ : Type} (encoded_sentence : γ) (encoded_background : List γ) : List γ :=
  [encoded_sentence] ++ encoded_background

/-- A node of the symbolic Keras graph the pretrainer assembles: input layers,
the embedding lookup produced by `_get_embedded_sentence_input`, the
application of a (possibly `TimeDistributed`) layer object to a tensor,
`Dropout(rate)`, and the `merge` with the concatenating `merge_mode` above
(recording its declared `output_shape` and name). -/
inductive Node where
  | inputLayer (shape : List Nat) (tag : String)
  | embedding (tag : String) (arg : Node)
  | applyLayer (layer : KLayer) (arg : Node)
  | dropout (rate : Rat) (arg : Node)
  | mergeConcat (tag : String) (output_shape : List Nat) (s b : Node)
deriving DecidableEq, Repr

/-- The layer objects applied along a graph node, outermost first. -/
def Node.layersApplied : Node → List KLayer
  | .inputLayer _ _ => []
  | .embedding _ arg => arg.layersApplied
  | .applyLayer layer arg => layer :: arg.layersApplied
  | .dropout _ arg => arg.layersApplied
  | .mergeConcat _ _ s b => s.layersApplied ++ b.layersApplied

/-- `Model(input=input_layers, output=attention_weights)`: the partial model
returned by `_build_model`, with its input layers and its single output
tensor. -/
structure KerasModel where
  input : List Node
  output : Node
deriving DecidableEq, Repr

/-- `trainer._get_embedded_sentence_input(input_shape=..., name_prefix=...)`.
Modelled from the spec: the embedding-construction collaborator returns a
fresh input layer of the given shape and the embedding lookup applied to it
(the string argument is the source's name_prefix keyword). -/
def _get_embedded_sentence_input (input_shape : List Nat) (tag : String) : Node × Node :=
  let input_layer := Node.inputLayer input_shape tag
  (input_layer, Node.embedding tag input_layer)

/-- `AttentionPretrainer._build_model` (lines 103-147): rebuild the first half
of the memory-network model up to the first attention layer.  The sentence
encoder and the first knowledge selector obtained from the trainer are
unwrapped from any `TimeDistributed` wrappers by the two `while` loops; the
unwrapped sentence encoder is re-wrapped as `TimeDistributed(...)` for the
background; the encoded question and background are merged with `merge_mode`
under declared output shape `(max_knowledge_length + 1, max_sentence_length)`,
regularized with `Dropout(0.2)`, and fed to the unwrapped knowledge selector,
whose attention weights are the model's sole output. -/
def _build_model (t : Trainer) : KerasModel :=
  let sentence_shape := [t.max_sentence_length]
  let background_shape := [t.max_knowledge_length, t.max_sentence_length]
  let sentence_pair := _get_embedded_sentence_input sentence_shape "sentence"
  let background_pair := _get_embedded_sentence_input background_shape "background"
  let sentence_input_layer := sentence_pair.1
  let sentence_embedding := sentence_pair.2
  let background_input_layer := background_pair.1
  let background_embedding := background_pair.2
  let sentence_encoder := unwrapTimeDistributed (_get_sentence_encoder t)
  let background_encoder := KLayer.timeDistributed sentence_encoder
  let encoded_sentence := Node.applyLayer sentence_encoder sentence_embedding
  let encoded_background := Node.applyLayer background_encoder background_embedding
  let merged_encoded_rep := Node.mergeConcat "concat_sentence_with_background_0"
      [t.max_knowledge_length + 1, t.max_sentence_length]
      encoded_sentence encoded_background
  let regularized_merged_rep := Node.dropout (0.2 : Rat) merged_encoded_rep
  let knowledge_selector := unwrapTimeDistributed (_get_knowledge_selector t 0)
  let attention_weights := Node.applyLayer knowledge_selector regularized_merged_rep
  { input := [sentence_input_layer, background_input_layer]
    output := attention_weights }

theorem dictLookup_dictSet_self (d : List (String × Bool)) (k : String) (v : Bool) :
    dictLookup (dictSet d k v) k = some v := by
  induction d with
  | nil => simp [dictSet, dictLookup]
  | cons hd tl ih =>
      obtain ⟨k', v'⟩ := hd
      by_cases h : k' = k
      · simp [dictSet, h, dictLookup]
      · simp [dictSet, h, dictLookup, ih]

theorem dictSet_dictSet_self (d : List (String × Bool)) (k : String) (v : Bool) :
    dictSet (dictSet d k v) k v = dictSet d k v := by
  induction d with
  | nil => simp [dictSet]
  | cons hd tl ih =>
      obtain ⟨k', v'⟩ := hd
      by_cases h : k' = k
      · simp [dictSet, h]
      · simp [dictSet, h, ih]

/-- Inversion of a successful construction: the trainer was a memory-network
solver, the pretrainer saved `get('hard_selection', False)`, and the only
change to the trainer is `knowledge_selector_params['hard_selection'] = False`. -/
theorem AttentionPretrainer.init_ok {t : Trainer} {params : PretrainerParams}
    {p : AttentionPretrainer} {t1 : Trainer}
    (h : AttentionPretrainer.init t params = (.ok p, t1)) :
    t.isMemoryNetworkSolver = true ∧
    p = { train_files := params.train_files
          _old_hard_attention_setting :=
            dictGet t.knowledge_selector_params "hard_selection" false
          name := "AttentionPretrainer" } ∧
    t1 = { t with knowledge_selector_params :=
                    dictSet t.knowledge_selector_params "hard_selection" false } := by
  by_cases hm : t.isMemoryNetworkSolver = true
  · rw [AttentionPretrainer.init, if_pos hm] at h
    injection h with h1 h2
    injection h1 with h1
    exact ⟨hm, h1.symm, h2.symm⟩
  · rw [AttentionPretrainer.init, if_neg hm] at h
    injection h with h1 h2
    exact absurd h1 (by simp)

/-- C1: if the trainer's `knowledge_selector_params` bind `hard_selection` to
`X` at `AttentionPretrainer` construction, then whatever trainer state
pretraining reaches, after `on_finished` runs the map again binds
`hard_selection` to `X` and every layer in `knowledge_selector_layers` has
`hard_selection = X`. -/
theorem restore_hard_selection_after_on_finished
    (t tm : Trainer) (params : PretrainerParams) (X : Bool)
    (p : AttentionPretrainer) (t1 : Trainer)
    (hX : dictLookup t.knowledge_selector_params "hard_selection" = some X)
    (hinit : AttentionPretrainer.init t params = (.ok p, t1)) :
    dictLookup (p.on_finished tm).knowledge_selector_params "hard_selection" = some X ∧
    ∀ kl ∈ (p.on_finished tm).knowledge_selector_layers, kl.2.hard_selection = X := by
  obtain ⟨-, hp, -⟩ := AttentionPretrainer.init_ok hinit
  have hold : p._old_hard_attention_setting = X := by
    rw [hp]; simp [dictGet, hX]
  constructor
  · simp [AttentionPretrainer.on_finished, dictLookup_dictSet_self, hold]
  · intro kl hkl
    have hmem : kl ∈ tm.knowledge_selector_layers.map
        (fun kl => (kl.1,
          ({ hard_selection := p._old_hard_attention_setting } : KnowledgeSelectorLayer))) := hkl
    rcases List.mem_map.mp hmem with ⟨x, -, hfx⟩
    rw [← hfx]
    exact hold

/-- A small concrete trainer used to instantiate witnesses. -/
def baseTrainer : Trainer where
  isMemoryNetworkSolver := true
  knowledge_selector_params := []
  knowledge_selector_layers := []
  max_sentence_length := 3
  max_knowledge_length := 2
  sentence_encoder := .timeDistributed (.base "encoder")
  knowledge_selectors := fun _ => .timeDistributed (.base "selector")
  data_indexer := { words := ["known"] }
  tokenizer := fun line => [line]
  instance_type := { read := fun line tok => tok line }

def tC1 : Trainer :=
  { baseTrainer with
    knowledge_selector_params := [("hard_selection", true)]
    knowledge_selector_layers := [(0, { hard_selection := false })] }

def pC1 : AttentionPretrainer :=
  { train_files := [], _old_hard_attention_setting := true, name := "AttentionPretrainer" }

def t1C1 : Trainer := (AttentionPretrainer.init tC1 { train_files := [] }).2

/-- Witness for C1 at a concrete trainer whose `hard_selection` was `True`. -/
theorem restore_hard_selection_after_on_finished_witness :
    dictLookup tC1.knowledge_selector_params "hard_selection" = some true ∧
    (dictLookup (pC1.on_finished t1C1).knowledge_selector_params "hard_selection" = some true ∧
     ∀ kl ∈ (pC1.on_finished t1C1).knowledge_selector_layers, kl.2.hard_selection = true) :=
  ⟨rfl, restore_hard_selection_after_on_finished tC1 t1C1 { train_files := [] } true pC1 t1C1
          rfl rfl⟩

/-- C3: constructing an `AttentionPretrainer` around a trainer that is not a
memory-network-style solver raises a `ConfigurationError`; construction does
not complete, and the trainer's state is returned unmutated. -/
theorem non_memory_network_trainer_rejected
    (t : Trainer) (params : PretrainerParams)
    (h : t.isMemoryNetworkSolver = false) :
    AttentionPretrainer.init t params =
      (.error { message := "The AttentionPretrainer needs a subclass of MemoryNetworkSolver" },
       t) := by
  rw [AttentionPretrainer.init, if_neg]
  simp [h]

def tC3 : Trainer :=
  { baseTrainer with
    isMemoryNetworkSolver := false
    knowledge_selector_params := [("hard_selection", true)] }

/-- Witness for C3 at a concrete non-memory-network trainer. -/
theorem non_memory_network_trainer_rejected_witness :
    tC3.isMemoryNetworkSolver = false ∧
    AttentionPretrainer.init tC3 { train_files := [] } =
      (.error { message := "The AttentionPretrainer needs a subclass of MemoryNetworkSolver" },
       tC3) :=
  ⟨rfl, non_memory_network_trainer_rejected tC3 { train_files := [] } rfl⟩

/-- C9: `on_finished` is idempotent: running it twice leaves
`knowledge_selector_params` and the selector layers exactly as running it
once, because it writes only the value saved at construction. -/
theorem on_finished_idempotent (p : AttentionPretrainer) (t : Trainer) :
    (p.on_finished (p.on_finished t)).knowledge_selector_params =
      (p.on_finished t).knowledge_selector_params ∧
    (p.on_finished (p.on_finished t)).knowledge_selector_layers =
      (p.on_finished t).knowledge_selector_layers := by
  constructor
  · simp [AttentionPretrainer.on_finished, dictSet_dictSet_self]
  · show List.map _ (List.map _ _) = List.map _ _
    rw [List.map_map]
    rfl

/-- C10: when `knowledge_selector_params` has no `hard_selection` key at
construction, the saved prior value defaults to `False`, and after
`on_finished` the map holds an explicit `hard_selection` key bound to
`False`. -/
theorem absent_hard_selection_key_defaults_false
    (t : Trainer) (params : PretrainerParams)
    (p : AttentionPretrainer) (t1 : Trainer)
    (habs : dictLookup t.knowledge_selector_params "hard_selection" = none)
    (hinit : AttentionPretrainer.init t params = (.ok p, t1)) :
    p._old_hard_attention_setting = false ∧
    dictLookup (p.on_finished t1).knowledge_selector_params "hard_selection" = some false := by
  obtain ⟨-, hp, -⟩ := AttentionPretrainer.init_ok hinit
  have hold : p._old_hard_attention_setting = false := by
    rw [hp]; simp [dictGet, habs]
  exact ⟨hold, by simp [AttentionPretrainer.on_finished, dictLookup_dictSet_self, hold]⟩

def tC10 : Trainer :=
  { baseTrainer with
    knowledge_selector_params := [("other_flag", true)]
    knowledge_selector_layers := [(0, { hard_selection := true })] }

def pC10 : AttentionPretrainer :=
  { train_files := [], _old_hard_attention_setting := false, name := "AttentionPretrainer" }

def t1C10 : Trainer := (AttentionPretrainer.init tC10 { train_files := [] }).2

/-- Witness for C10 at a concrete trainer whose map lacks the key. -/
theorem absent_hard_selection_key_defaults_false_witness :
    dictLookup tC10.knowledge_selector_params "hard_selection" = none ∧
    (pC10._old_hard_attention_setting = false ∧
     dictLookup (pC10.on_finished t1C10).knowledge_selector_params "hard_selection"
       = some false) :=
  ⟨rfl, absent_hard_selection_key_defaults_false tC10 { train_files := [] } pC10 t1C10 rfl rfl⟩

def tC2 : Trainer :=
  { baseTrainer with
    knowledge_selector_params := [("hard_selection", true)]
    knowledge_selector_layers := [(0, { hard_selection := true })] }

/-- C2 counterexample: at a trainer with a pre-existing selector layer whose
`hard_selection` is `True`, construction succeeds and forces the
configuration map to `False`, but at the point right after construction
(between construction and `on_finished`) the selector layer instance still
reads `hard_selection = True`, not `False`: the constructor only writes the
map, never the layer instances. -/
theorem hard_selection_layers_not_forced_at_construction_cex :
    (AttentionPretrainer.init tC2 { train_files := [] }).1 =
      Except.ok { train_files := []
                  _old_hard_attention_setting := true
                  name := "AttentionPretrainer" } ∧
    dictLookup (AttentionPretrainer.init tC2 { train_files := [] }).2.knowledge_selector_params
      "hard_selection" = some false ∧
    ((AttentionPretrainer.init tC2 { train_files := [] }).2.knowledge_selector_layers.map
      (fun kl => kl.2.hard_selection)) = [true] :=
  ⟨rfl, rfl, rfl⟩

/-- C2 (amended): between construction and `on_finished`, the
`knowledge_selector_params` map reads `hard_selection` as disabled (`False`),
regardless of its pre-construction value; the selector layer instances,
however, are left exactly as they were before construction (the constructor
does not write them). -/
theorem hard_selection_params_forced_soft_during_pretraining
    (t : Trainer) (params : PretrainerParams)
    (p : AttentionPretrainer) (t1 : Trainer)
    (hinit : AttentionPretrainer.init t params = (.ok p, t1)) :
    dictLookup t1.knowledge_selector_params "hard_selection" = some false ∧
    dictGet t1.knowledge_selector_params "hard_selection" false = false ∧
    t1.knowledge_selector_layers = t.knowledge_selector_layers := by
  obtain ⟨-, -, ht1⟩ := AttentionPretrainer.init_ok hinit
  subst ht1
  refine ⟨?_, ?_, rfl⟩
  · simp [dictLookup_dictSet_self]
  · simp [dictGet, dictLookup_dictSet_self]

def t1C2 : Trainer := (AttentionPretrainer.init tC2 { train_files := [] }).2

/-- Witness for the amended C2 at a concrete trainer with
`hard_selection = True` before construction. -/
theorem hard_selection_params_forced_soft_during_pretraining_witness :
    dictLookup t1C2.knowledge_selector_params "hard_selection" = some false ∧
    dictGet t1C2.knowledge_selector_params "hard_selection" false = false ∧
    t1C2.knowledge_selector_layers = tC2.knowledge_selector_layers :=
  hard_selection_params_forced_soft_during_pretraining tC2 { train_files := [] }
    { train_files := [], _old_hard_attention_setting := true, name := "AttentionPretrainer" }
    t1C2 rfl

def tC4 : Trainer :=
  { baseTrainer with
    knowledge_selector_params := [("hard_selection", true)] }

/-- C4 counterexample: at a trainer with `hard_selection = True`, on the exit
path where pretraining aborts before the `on_finished` hook runs, the
configuration map still reads `hard_selection = False` (the mid-pretraining
state), not the saved `True`: the save/restore is not exception-safe, because
restoration lives only in `on_finished` and there is no scope-exit guard. -/
theorem aborted_run_leaves_pretraining_state_cex :
    dictLookup tC4.knowledge_selector_params "hard_selection" = some true ∧
    (AttentionPretrainer.init tC4 { train_files := [] }).1 =
      Except.ok { train_files := []
                  _old_hard_attention_setting := true
                  name := "AttentionPretrainer" } ∧
    dictLookup (runPretraining
        { train_files := [], _old_hard_attention_setting := true, name := "AttentionPretrainer" }
        (AttentionPretrainer.init tC4 { train_files := [] }).2 true).knowledge_selector_params
      "hard_selection" = some false :=
  ⟨rfl, rfl, rfl⟩

/-- C4 (amended): `hard_selection` is restored to its pre-pretraining value
exactly on the exit paths where the `on_finished` hook runs; on an abnormal
exit (a failure raised during pretraining before `on_finished` is invoked)
the trainer's configuration remains in the pretraining state,
`hard_selection = False`. -/
theorem restore_only_on_finished_exit_path
    (t : Trainer) (params : PretrainerParams) (X : Bool)
    (p : AttentionPretrainer) (t1 : Trainer)
    (hX : dictLookup t.knowledge_selector_params "hard_selection" = some X)
    (hinit : AttentionPretrainer.init t params = (.ok p, t1)) :
    dictLookup (runPretraining p t1 false).knowledge_selector_params "hard_selection"
      = some X ∧
    dictLookup (runPretraining p t1 true).knowledge_selector_params "hard_selection"
      = some false := by
  obtain ⟨-, hp, ht1⟩ := AttentionPretrainer.init_ok hinit
  subst ht1
  constructor
  · rw [hp]
    simp [runPretraining, AttentionPretrainer.on_finished, dictLookup_dictSet_self,
          dictGet, hX]
  · simp [runPretraining, dictLookup_dictSet_self]

def t1C4 : Trainer := (AttentionPretrainer.init tC4 { train_files := [] }).2

def pC4 : AttentionPretrainer :=
  { train_files := [], _old_hard_attention_setting := true, name := "AttentionPretrainer" }

/-- Witness for the amended C4 at a concrete trainer with
`hard_selection = True` before pretraining. -/
theorem restore_only_on_finished_exit_path_witness :
    dictLookup tC4.knowledge_selector_params "hard_selection" = some true ∧
    (dictLookup (runPretraining pC4 t1C4 false).knowledge_selector_params "hard_selection"
       = some true ∧
     dictLookup (runPretraining pC4 t1C4 true).knowledge_selector_params "hard_selection"
       = some false) :=
  ⟨rfl, restore_only_on_finished_exit_path tC4 { train_files := [] } true pC4 t1C4 rfl rfl⟩

/-- C5: the partial model concatenates the encoded question and the encoded
background into a sequence of exactly `max_knowledge_length + 1` positions
(the merge's declared output shape), with the question representation at
position 0 and background item i at position i + 1 in original order, and the
model's sole output is the first knowledge selector's attention weights
applied (through the dropout) to that merged sequence. -/
theorem merged_sequence_and_sole_output {γ : Type} (t : Trainer) (q : γ) (bg : List γ)
    (hbg : bg.length = t.max_knowledge_length) :
    (_build_model t).output =
      Node.applyLayer (unwrapTimeDistributed (_get_knowledge_selector t 0))
        (Node.dropout (0.2 : Rat)
          (Node.mergeConcat "concat_sentence_with_background_0"
            [t.max_knowledge_length + 1, t.max_sentence_length]
            (Node.applyLayer (unwrapTimeDistributed (_get_sentence_encoder t))
              (Node.embedding "sentence" (Node.inputLayer [t.max_sentence_length] "sentence")))
            (Node.applyLayer
              (KLayer.timeDistributed (unwrapTimeDistributed (_get_sentence_encoder t)))
              (Node.embedding "background"
                (Node.inputLayer [t.max_knowledge_length, t.max_sentence_length]
                  "background"))))) ∧
    (merge_mode q bg).length = t.max_knowledge_length + 1 ∧
    (merge_mode q bg).get? 0 = some q ∧
    ∀ i, i < bg.length → (merge_mode q bg).get? (i + 1) = bg.get? i := by
  refine ⟨rfl, ?_, rfl, ?_⟩
  · simp [merge_mode, hbg]
  · intro i _
    rfl

def tC5 : Trainer := baseTrainer

/-- Witness for C5 at a concrete trainer with two background slots. -/
theorem merged_sequence_and_sole_output_witness :
    ([10, 20] : List Nat).length = tC5.max_knowledge_length ∧
    ((_build_model tC5).output =
      Node.applyLayer (unwrapTimeDistributed (_get_knowledge_selector tC5 0))
        (Node.dropout (0.2 : Rat)
          (Node.mergeConcat "concat_sentence_with_background_0"
            [tC5.max_knowledge_length + 1, tC5.max_sentence_length]
            (Node.applyLayer (unwrapTimeDistributed (_get_sentence_encoder tC5))
              (Node.embedding "sentence" (Node.inputLayer [tC5.max_sentence_length] "sentence")))
            (Node.applyLayer
              (KLayer.timeDistributed (unwrapTimeDistributed (_get_sentence_encoder tC5)))
              (Node.embedding "background"
                (Node.inputLayer [tC5.max_knowledge_length, tC5.max_sentence_length]
                  "background"))))) ∧
     (merge_mode (7 : Nat) [10, 20]).length = tC5.max_knowledge_length + 1 ∧
     (merge_mode (7 : Nat) [10, 20]).get? 0 = some 7 ∧
     ∀ i, i < ([10, 20] : List Nat).length →
       (merge_mode (7 : Nat) [10, 20]).get? (i + 1) = ([10, 20] : List Nat).get? i) :=
  ⟨rfl, merged_sequence_and_sole_output tC5 7 [10, 20] rfl⟩

/-- C7: any sentence encoder or knowledge selector obtained from the trainer
is fully unwrapped from `TimeDistributed` wrappers before being applied: the
unwrapping loop always yields a non-time-distributed base layer, and the
layers applied in the partial graph are exactly the unwrapped first knowledge
selector, the unwrapped sentence encoder, and a fresh `TimeDistributed`
wrapping of that unwrapped encoder for the background. -/
theorem encoders_selectors_fully_unwrapped (t : Trainer) :
    (∀ e : KLayer, (unwrapTimeDistributed e).isTimeDistributed = false) ∧
    (_build_model t).output.layersApplied =
      [unwrapTimeDistributed (_get_knowledge_selector t 0),
       unwrapTimeDistributed (_get_sentence_encoder t),
       KLayer.timeDistributed (unwrapTimeDistributed (_get_sentence_encoder t))] := by
  constructor
  · intro e
    induction e with
    | base tag => rfl
    | timeDistributed layer ih => simpa [unwrapTimeDistributed] using ih
  · rfl

theorem foldl_min_const {γ : Type} (rs : List (List γ)) (k : Nat) :
    (∀ s ∈ rs, s.length = k) → rs.foldl (fun m s => min m s.length) k = k := by
  induction rs with
  | nil => intro _; rfl
  | cons s ss ih =>
      intro h
      have hs : s.length = k := h s (by simp)
      simp only [List.foldl_cons, hs, min_self]
      exact ih (fun x hx => h x (by simp [hx]))

theorem pyZipLength_of_const {γ : Type} (rows : List (List γ)) (k : Nat)
    (h : ∀ r ∈ rows, r.length = k) (hne : rows ≠ []) :
    pyZipLength rows = k := by
  cases rows with
  | nil => exact absurd rfl hne
  | cons r rs =>
      have hr : r.length = k := h r (by simp)
      show rs.foldl (fun m s => min m s.length) r.length = k
      rw [hr]
      exact foldl_min_const rs k (fun x hx => h x (by simp [hx]))

theorem filterMap_get_eq_map_getD {γ : Type} [Inhabited γ] (k j : Nat) (hj : j < k) :
    ∀ rows : List (List γ), (∀ r ∈ rows, r.length = k) →
      rows.filterMap (fun r => r.get? j) = rows.map (fun r => r.getD j default) := by
  intro rows
  induction rows with
  | nil => intro _; rfl
  | cons r rs ih =>
      intro h
      have hr : r.length = k := h r (by simp)
      have hget : r.get? j = some (r.getD j default) := by
        rw [List.getD_eq_getElem?_getD, List.get?_eq_getElem?,
            List.getElem?_eq_getElem (hr ▸ hj)]
        rfl
      simp only [List.filterMap_cons, hget, List.map_cons]
      rw [ih (fun x hx => h x (by simp [hx]))]

theorem pyZip_length {γ : Type} (rows : List (List γ)) :
    (pyZip rows).length = pyZipLength rows := by
  simp [pyZip]

theorem pyZip_get_of_const {γ : Type} [Inhabited γ] (rows : List (List γ)) (k j : Nat)
    (h : ∀ r ∈ rows, r.length = k) (hne : rows ≠ []) (hj : j < k) :
    (pyZip rows).get? j = some (rows.map (fun r => r.getD j default)) := by
  have hlen : pyZipLength rows = k := pyZipLength_of_const rows k h hne
  have hj' : j < (List.range (pyZipLength rows)).length := by simpa [hlen] using hj
  unfold pyZip
  rw [List.get?_eq_getElem?, List.getElem?_map, List.getElem?_eq_getElem hj',
      List.getElem_range]
  exact congrArg some (filterMap_get_eq_map_getD k j hj rows h)

/-- The list of per-instance inputs `_prepare_data` extracts (indexing then
padding then `as_training_data`, in original dataset order). -/
def preparedInputsList {δ γ Λ : Type} (toIndexed : δ → IndexedInstance γ Λ)
    (padInstance : IndexedInstance γ Λ → IndexedInstance γ Λ) (dataset : List δ) :
    List (InstanceInput γ) :=
  ((dataset.map toIndexed).map padInstance).map (fun i => i.input)

/-- The list of per-instance labels `_prepare_data` extracts, in original
dataset order. -/
def preparedLabelsList {δ γ Λ : Type} (toIndexed : δ → IndexedInstance γ Λ)
    (padInstance : IndexedInstance γ Λ → IndexedInstance γ Λ) (dataset : List δ) :
    List Λ :=
  ((dataset.map toIndexed).map padInstance).map (fun i => i.label)

theorem _prepare_data_cons {δ γ Λ : Type} (toIndexed : δ → IndexedInstance γ Λ)
    (padInstance : IndexedInstance γ Λ → IndexedInstance γ Λ)
    (d : δ) (ds : List δ) (for_train : Bool) :
    _prepare_data toIndexed padInstance (d :: ds) for_train =
      (if (padInstance (toIndexed d)).input.isTuple then
        some (.fieldArrays (pyZip ((preparedInputsList toIndexed padInstance (d :: ds)).map
                InstanceInput.fieldsOf)),
              preparedLabelsList toIndexed padInstance (d :: ds))
      else
        some (.flatArray (preparedInputsList toIndexed padInstance (d :: ds)),
              preparedLabelsList toIndexed padInstance (d :: ds))) := rfl

/-- C6 counterexample: on an empty (zero-example) dataset, `_prepare_data`
does not return length-0 inputs and labels; it evaluates `inputs[0]`, which
raises `IndexError` (modelled as `none`). -/
theorem prepare_data_empty_dataset_cex :
    _prepare_data (fun n => { input := InstanceInput.single n, label := n })
      (id : IndexedInstance Nat Nat → IndexedInstance Nat Nat) ([] : List Nat) true = none := rfl

/-- C6 (amended): for every nonempty dataset of N aligned examples,
`_prepare_data` returns a label list of N rows and inputs preserving the
original instance order with no shuffling or filtering: when the instances'
inputs are composite tuples (of a common arity), they are split into one
array per field, each of length N with position i holding instance i's field;
when they are not tuples, the inputs form one flat array of length N.  (On an
empty dataset the code raises `IndexError` instead.) -/
theorem prepare_data_shapes_and_order {δ γ Λ : Type} [Inhabited γ]
    (toIndexed : δ → IndexedInstance γ Λ)
    (padInstance : IndexedInstance γ Λ → IndexedInstance γ Λ)
    (dataset : List δ) (for_train : Bool) (hne : dataset ≠ []) :
    ∃ ins, _prepare_data toIndexed padInstance dataset for_train
        = some (ins, preparedLabelsList toIndexed padInstance dataset) ∧
      (preparedLabelsList toIndexed padInstance dataset).length = dataset.length ∧
      ((∀ inp ∈ preparedInputsList toIndexed padInstance dataset, inp.isTuple = false) →
        ins = .flatArray (preparedInputsList toIndexed padInstance dataset) ∧
        (preparedInputsList toIndexed padInstance dataset).length = dataset.length) ∧
      ∀ k, (∀ inp ∈ preparedInputsList toIndexed padInstance dataset,
              ∃ fs, inp = InstanceInput.tuple fs ∧ fs.length = k) →
        ∃ arrays, ins = .fieldArrays arrays ∧ arrays.length = k ∧
          ∀ j, j < k →
            arrays.get? j = some ((preparedInputsList toIndexed padInstance dataset).map
                (fun inp => inp.fieldsOf.getD j default)) ∧
            ((preparedInputsList toIndexed padInstance dataset).map
                (fun inp => inp.fieldsOf.getD j default)).length = dataset.length := by
  cases dataset with
  | nil => exact absurd rfl hne
  | cons d ds =>
    have hhead : (padInstance (toIndexed d)).input
        ∈ preparedInputsList toIndexed padInstance (d :: ds) := by
      simp [preparedInputsList]
    by_cases hT : (padInstance (toIndexed d)).input.isTuple = true
    · refine ⟨.fieldArrays (pyZip ((preparedInputsList toIndexed padInstance (d :: ds)).map
          InstanceInput.fieldsOf)), ?_, ?_, ?_, ?_⟩
      · rw [_prepare_data_cons, if_pos hT]
      · simp [preparedLabelsList]
      · intro hall
        have hfalse := hall _ hhead
        rw [hT] at hfalse
        exact absurd hfalse (by simp)
      · intro k hk
        have hrows : ∀ r ∈ (preparedInputsList toIndexed padInstance (d :: ds)).map
            InstanceInput.fieldsOf, r.length = k := by
          intro r hr
          rcases List.mem_map.mp hr with ⟨inp, hin, hinr⟩
          rcases hk inp hin with ⟨fs, hfs, hlen⟩
          rw [← hinr, hfs]
          simpa [InstanceInput.fieldsOf] using hlen
        have hneL : (preparedInputsList toIndexed padInstance (d :: ds)).map
            InstanceInput.fieldsOf ≠ [] := by
          simp [preparedInputsList]
        refine ⟨_, rfl, ?_, ?_⟩
        · rw [pyZip_length, pyZipLength_of_const _ k hrows hneL]
        · intro j hj
          constructor
          · rw [pyZip_get_of_const _ k j hrows hneL hj, List.map_map]
            rfl
          · simp [preparedInputsList]
    · have hT' : (padInstance (toIndexed d)).input.isTuple = false := by
        simpa using hT
      refine ⟨.flatArray (preparedInputsList toIndexed padInstance (d :: ds)), ?_, ?_, ?_, ?_⟩
      · rw [_prepare_data_cons, if_neg hT]
      · simp [preparedLabelsList]
      · intro _
        exact ⟨rfl, by simp [preparedInputsList]⟩
      · intro k hk
        exfalso
        rcases hk _ hhead with ⟨fs, hfs, -⟩
        rw [hfs] at hT'
        simp [InstanceInput.isTuple] at hT'

def w6toIndexed : Nat → IndexedInstance Nat Nat :=
  fun n => { input := InstanceInput.tuple [n, n + 1], label := n }

/-- Witness for the amended C6 at a concrete two-example dataset with
composite (two-field) inputs. -/
theorem prepare_data_shapes_and_order_witness :
    ([5, 9] : List Nat) ≠ [] ∧
    (∃ ins, _prepare_data w6toIndexed id ([5, 9] : List Nat) true
        = some (ins, preparedLabelsList w6toIndexed id [5, 9]) ∧
      (preparedLabelsList w6toIndexed id [5, 9]).length = ([5, 9] : List Nat).length ∧
      ((∀ inp ∈ preparedInputsList w6toIndexed id [5, 9], inp.isTuple = false) →
        ins = .flatArray (preparedInputsList w6toIndexed id [5, 9]) ∧
        (preparedInputsList w6toIndexed id [5, 9]).length = ([5, 9] : List Nat).length) ∧
      ∀ k, (∀ inp ∈ preparedInputsList w6toIndexed id [5, 9],
              ∃ fs, inp = InstanceInput.tuple fs ∧ fs.length = k) →
        ∃ arrays, ins = .fieldArrays arrays ∧ arrays.length = k ∧
          ∀ j, j < k →
            arrays.get? j = some ((preparedInputsList w6toIndexed id [5, 9]).map
                (fun inp => inp.fieldsOf.getD j default)) ∧
            ((preparedInputsList w6toIndexed id [5, 9]).map
                (fun inp => inp.fieldsOf.getD j default)).length = ([5, 9] : List Nat).length) :=
  ⟨by simp, prepare_data_shapes_and_order w6toIndexed id [5, 9] true (by simp)⟩

/-- The primary example fields survive attaching labeled background: the
loaded dataset's primary token lists are exactly the tokenization of the
primary file's lines by the trainer's instance type and tokenizer. -/
theorem load_primary_words (t : Trainer) (f0 f1 : List String) :
    (TextDataset.read_labeled_background_from_file
        (TextDataset.read_from_file f0 t.instance_type t.tokenizer) f1).map
      (fun i => i.text_instance.words)
      = f0.map (fun line => t.instance_type.read line t.tokenizer) := by
  unfold TextDataset.read_labeled_background_from_file TextDataset.read_from_file
  rw [List.map_map]
  have h2 : ((TextDataset.read_from_file f0 t.instance_type t.tokenizer).enum.map
      (fun p => p.2)).map (fun i => i.words)
      = f0.map (fun line => t.instance_type.read line t.tokenizer) := by
    rw [List.enum_map_snd]
    unfold TextDataset.read_from_file
    rw [List.map_map]
    rfl
  rw [← h2, List.map_map]
  rfl

/-- C8: `fit_data_indexer` loads the pretraining dataset with the wrapped
trainer's own instance type and tokenizer, and extends the trainer's
word-to-index dictionary with the vocabulary of the primary example fields:
every previously known word stays resolvable and every token appearing in the
primary file's parsed lines becomes resolvable. -/
theorem fit_data_indexer_extends_vocabulary
    (t : Trainer) (p : AttentionPretrainer) (f0 f1 : List String) (rest : List (List String))
    (hfiles : p.train_files = f0 :: f1 :: rest) :
    _load_dataset_from_files t p.train_files =
      some (TextDataset.read_labeled_background_from_file
        (TextDataset.read_from_file f0 t.instance_type t.tokenizer) f1) ∧
    ∃ t', p.fit_data_indexer t = some t' ∧
      (∀ w ∈ t.data_indexer.words, w ∈ t'.data_indexer.words) ∧
      ∀ line ∈ f0, ∀ w ∈ t.instance_type.read line t.tokenizer,
        w ∈ t'.data_indexer.words := by
  rw [AttentionPretrainer.fit_data_indexer, hfiles]
  refine ⟨rfl, ⟨_, rfl, ?_, ?_⟩⟩
  · intro w hw
    simp only [DataIndexer.fit_word_dictionary, List.mem_append]
    exact Or.inl hw
  · intro line hline w hw
    simp only [DataIndexer.fit_word_dictionary, List.mem_append]
    refine Or.inr ?_
    rw [load_primary_words t f0 f1]
    exact List.mem_flatten.mpr
      ⟨t.instance_type.read line t.tokenizer, List.mem_map_of_mem _ hline, hw⟩

def tC8 : Trainer := baseTrainer

def pC8 : AttentionPretrainer :=
  { train_files := [["hello world"], ["bg line"]]
    _old_hard_attention_setting := false
    name := "AttentionPretrainer" }

/-- Witness for C8 at a concrete two-file input. -/
theorem fit_data_indexer_extends_vocabulary_witness :
    pC8.train_files = ["hello world"] :: ["bg line"] :: [] ∧
    (_load_dataset_from_files tC8 pC8.train_files =
      some (TextDataset.read_labeled_background_from_file
        (TextDataset.read_from_file ["hello world"] tC8.instance_type tC8.tokenizer)
        ["bg line"]) ∧
    ∃ t', pC8.fit_data_indexer tC8 = some t' ∧
      (∀ w ∈ tC8.data_indexer.words, w ∈ t'.data_indexer.words) ∧
      ∀ line ∈ ["hello world"], ∀ w ∈ tC8.instance_type.read line tC8.tokenizer,
        w ∈ t'.data_indexer.words) :=
  ⟨rfl, fit_data_indexer_extends_vocabulary tC8 pC8 ["hello world"] ["bg line"] [] rfl⟩
